import Mathlib

/-!
Shallow embedding of the wallet UI session facade
(src/apps/wallet/src/ui/app/background-client/index.ts, class BackgroundClient).

The facade owns one port stream to the background service, builds typed
request envelopes, awaits the correlated response for the request-style
operations, projects a typed value out of the response payload, and routes
non-correlated broadcast payloads into local observable state.

Conventions of the embedding:
  - TypeScript tagged unions of payloads become one Lean inductive with one
    constructor per payload shape; the payload type guards (isKeyringPayload,
    isMethodPayload, isQredoConnectPayload and the broadcast guards, which
    live in modules outside the sources at hand) are discriminant checks and
    are embedded as constructor matches.
  - thrown Error values become an explicit ClientError sum; the exact source
    message of each throw site is kept either as the constructor field
    (unexpectedResponseShape) or recorded next to the constructor.
  - the mutable fields of the class become an explicit ClientState record,
    and the methods that mutate it become state-passing functions returning
    Except ClientError ClientState.
-/

/-- Errors raised by the facade. Each constructor corresponds to one or more
throw sites in the source:
  - channelNotConnected: "Failed to send message to background service. Port not connected."
  - alreadyInited: "[BackgroundClient] already initialized" (message of the init guard)
  - notInited: "BackgroundClient is not initialized to handle incoming messages"
  - mnemonicNotFound: "Mnemonic not found"
  - unexpectedResponseShape: the unknown/unexpected-response throws of the
    response projections; the field keeps the exact source message. -/
inductive ClientError where
  | channelNotConnected
  | alreadyInited
  | notInited
  | mnemonicNotFound
  | unexpectedResponseShape (message : String)
deriving DecidableEq, Repr

/-- UIAccessibleEntityType: the entity kinds the UI may query
(MethodPayload getStoredEntities / entitiesUpdated). -/
inductive EntityType where
  | accounts
  | accountSources
deriving DecidableEq, Repr

/-- The string form of an entity type, as it appears in payloads. -/
def EntityType.str : EntityType → String
  | .accounts => "accounts"
  | .accountSources => "accountSources"

/-- A serialized UI account as carried in accountsCreatedResponse and
acceptQredoConnectionResponse payloads; only the fields the facade reads. -/
structure SerializedAccount where
  type : String
  address : String
deriving DecidableEq, Repr

/-- A serialized account source as carried in accountSourceCreationResponse. -/
structure SerializedAccountSource where
  id : String
  type : String
deriving DecidableEq, Repr

/-- The payload union, one constructor per payload shape the facade
inspects. Keyring payloads carry their optional return value; the catch-all
constructors keyringOther, methodOther, qredoOther and basePayload stand for
payloads of the same discriminant family with any other method, and for any
other payload type, respectively. -/
inductive Payload where
  | keyringGetEntropy (ret : Option String)
  | keyringDeriveNextAccount (ret : Option String)
  | keyringExportAccount (ret : Option String)
  | keyringOther (method : String)
  | signDataResponse (signature : String)
  | storedEntitiesResponse (entityType : EntityType) (entities : List String)
  | accountSourceCreationResponse (accountSource : SerializedAccountSource)
  | accountsCreatedResponse (accounts : List SerializedAccount)
  | deleteAccountSourceByTypeResponse (success : Bool)
  | storageMigrationStatus (status : String)
  | getAccountSourceEntropyResponse (entropy : String)
  | methodOther (method : String)
  | qredoGetPendingRequestResponse (request : String)
  | qredoGetQredoInfoResponse (info : String)
  | qredoAcceptQredoConnectionResponse (accounts : List SerializedAccount)
  | qredoOther (method : String)
  | permissionRequests (permissions : List String)
  | getTransactionRequestsResponse (txRequests : List String)
  | updateActiveOrigin (origin : Option String)
  | loadedFeatures (features : List String) (attributes : List String)
  | setNetworkPayload (network : String)
  | entitiesUpdated (entityType : EntityType)
  | basePayload (type : String)
deriving DecidableEq, Repr

/-- A message envelope: correlation id plus payload (createMessage wraps a
payload with a fresh id). -/
structure Envelope where
  id : Nat
  payload : Payload
deriving DecidableEq, Repr

/-- Arguments of an outbound request envelope, restricted to the shapes the
verified operations build. -/
inductive ReqArgs where
  | noArgs
  | password (password : String)
  | appStatus (active : Bool)
deriving DecidableEq, Repr

/-- An outbound request payload as built by createMessage: the type
discriminant, the optional method discriminant, and the arguments. -/
structure RequestEnvelope where
  type : String
  method : Option String
  args : ReqArgs
deriving DecidableEq, Repr

/-- A request as produced by a facade method: the envelope it builds plus
whether the method awaits the correlated response
(lastValueFrom(...pipe(take(1))) in the source) or fires and forgets. -/
structure SentRequest where
  envelope : RequestEnvelope
  awaitsResponse : Bool
deriving DecidableEq, Repr

/-- State of one port stream as the facade observes it: whether it is
connected and whether the disconnect and message handlers are subscribed. -/
structure PortStreamState where
  channelName : String
  connected : Bool
  disconnectHandlerSubscribed : Bool
  messageHandlerSubscribed : Bool
deriving DecidableEq, Repr

/-- The local observable state the facade mirrors from broadcasts: redux
slices (permissions, transaction requests, active origin, network), the
feature-gating attributes and features, and the query keys invalidated on
entitiesUpdated broadcasts. -/
structure LocalState where
  permissions : List String
  txRequests : List String
  activeOrigin : Option String
  features : List String
  featureAttributes : List String
  network : Option String
  invalidatedQueries : List String
deriving DecidableEq, Repr

/-- The mutable fields of the BackgroundClient class, plus the log of every
envelope handed to the port stream (sentLog) and whether the periodic status
interval has been registered. -/
structure ClientState where
  portStream : Option PortStreamState
  dispatchSet : Bool
  inited : Bool
  intervalRegistered : Bool
  sentLog : List RequestEnvelope
  localState : LocalState
deriving DecidableEq, Repr

/-- The empty local state, before any broadcast arrived. -/
def emptyLocalState : LocalState :=
  { permissions := []
    txRequests := []
    activeOrigin := none
    features := []
    featureAttributes := []
    network := none
    invalidatedQueries := [] }

/-- The state of a fresh BackgroundClient instance before init is called. -/
def preInitState : ClientState :=
  { portStream := none
    dispatchSet := false
    inited := false
    intervalRegistered := false
    sentLog := []
    localState := emptyLocalState }

/-- A state whose init has set the flags (used to evaluate the handlers at a
concrete initialized instance). -/
def readyState : ClientState :=
  { preInitState with inited := true, dispatchSet := true }

namespace BackgroundClient

/-- The duration in milliseconds between status updates sent to the
background service (APP_STATUS_UPDATE_INTERVAL in the source). -/
def APP_STATUS_UPDATE_INTERVAL : Nat := 20 * 1000

/-- Instant, in milliseconds after init, of the n-th appStatusUpdate
emission: init sends one immediately (n = 0) and setInterval fires every
APP_STATUS_UPDATE_INTERVAL thereafter. -/
def appStatusEmissionTime (n : Nat) : Nat := n * APP_STATUS_UPDATE_INTERVAL

/-- sendAppStatus: builds the keyring/appStatusUpdate envelope with
active := (document.visibilityState === "visible") and sends it without
awaiting any response (no lastValueFrom/take in the source). -/
def sendAppStatus (visibilityState : String) : SentRequest :=
  { envelope :=
      { type := "keyring"
        method := some "appStatusUpdate"
        args := ReqArgs.appStatus (visibilityState == "visible") }
    awaitsResponse := false }

/-- verifyPassword: with legacyAccounts true builds a keyring-typed
verifyPassword envelope, otherwise (default false) a method-payload-typed
one; both carry the password, and the call awaits the correlated response. -/
def verifyPassword (password : String) (legacyAccounts : Bool := false) : SentRequest :=
  { envelope :=
      if legacyAccounts then
        { type := "keyring"
          method := some "verifyPassword"
          args := ReqArgs.password password }
      else
        { type := "method-payload"
          method := some "verifyPassword"
          args := ReqArgs.password password }
    awaitsResponse := true }

/-- The get-permission-requests request sent during init. -/
def getPermissionRequestsEnv : RequestEnvelope :=
  { type := "get-permission-requests", method := none, args := ReqArgs.noArgs }

/-- The get-transaction-requests request sent during init. -/
def getTransactionRequestsEnv : RequestEnvelope :=
  { type := "get-transaction-requests", method := none, args := ReqArgs.noArgs }

/-- The get-features request sent during init. -/
def getFeaturesEnv : RequestEnvelope :=
  { type := "get-features", method := none, args := ReqArgs.noArgs }

/-- The get-network request sent during init. -/
def getNetworkEnv : RequestEnvelope :=
  { type := "get-network", method := none, args := ReqArgs.noArgs }

/-- The port stream produced by createPortStream: connected to the fixed
channel, with the disconnect handler and the message handler subscribed. -/
def freshPortStream : PortStreamState :=
  { channelName := "sui_ui<->background"
    connected := true
    disconnectHandlerSubscribed := true
    messageHandlerSubscribed := true }

/-- createPortStream: replaces the port stream with a freshly connected one
and subscribes both handlers; it touches nothing else. -/
def createPortStream (st : ClientState) : ClientState :=
  { st with portStream := some freshPortStream }

/-- A disconnect event on the current port stream: the stream drops to
disconnected, then the subscribed onDisconnect handler runs, whose only
action is createPortStream. -/
def onDisconnect (st : ClientState) : ClientState :=
  createPortStream
    { st with portStream := st.portStream.map fun p => { p with connected := false } }

/-- Whether the port stream exists and is connected
(the this._portStream?.connected test of sendMessage). -/
def portConnected (st : ClientState) : Bool :=
  match st.portStream with
  | some p => p.connected
  | none => false

/-- sendMessage: hands the envelope to the port stream when it is connected,
otherwise throws; a send never succeeds silently and is never queued. -/
def sendMessage (st : ClientState) (msg : RequestEnvelope) : Except ClientError ClientState :=
  if portConnected st then
    Except.ok { st with sentLog := st.sentLog ++ [msg] }
  else
    Except.error ClientError.channelNotConnected

/-- init: throws when already initialized; otherwise marks the instance
initialized, stores the dispatch, creates the port stream, sends the first
appStatusUpdate, registers the periodic status interval and issues the four
initial queries. -/
def init (st : ClientState) (visibilityState : String) : Except ClientError ClientState :=
  if st.inited then
    Except.error ClientError.alreadyInited
  else
    let st1 := { st with inited := true, dispatchSet := true }
    let st2 := createPortStream st1
    let st3 := { st2 with sentLog := st2.sentLog ++ [(sendAppStatus visibilityState).envelope] }
    let st4 := { st3 with intervalRegistered := true }
    Except.ok
      { st4 with
          sentLog := st4.sentLog ++
            [getPermissionRequestsEnv, getTransactionRequestsEnv, getFeaturesEnv, getNetworkEnv] }

/-- The query-key string each entity type maps to
(entitiesToClientQueryKeys; the keys themselves are imported constants,
kept here as their entity names). -/
def entitiesToClientQueryKeys : EntityType → Option String
  | .accounts => some "accountsQueryKey"
  | .accountSources => some "accountSourcesQueryKey"

/-- handleIncomingMessage: throws when the instance is not initialized or
has no dispatch; otherwise routes the recognized broadcast payloads into
local state and leaves the state untouched for every other payload. -/
def handleIncomingMessage (st : ClientState) (msg : Envelope) : Except ClientError ClientState :=
  if !st.inited || !st.dispatchSet then
    Except.error ClientError.notInited
  else
    match msg.payload with
    | .permissionRequests perms =>
        Except.ok { st with localState := { st.localState with permissions := perms } }
    | .getTransactionRequestsResponse txs =>
        Except.ok { st with localState := { st.localState with txRequests := txs } }
    | .updateActiveOrigin origin =>
        Except.ok { st with localState := { st.localState with activeOrigin := origin } }
    | .loadedFeatures features attributes =>
        Except.ok
          { st with
              localState :=
                { st.localState with features := features, featureAttributes := attributes } }
    | .setNetworkPayload network =>
        Except.ok { st with localState := { st.localState with network := some network } }
    | .entitiesUpdated t =>
        match entitiesToClientQueryKeys t with
        | some key =>
            Except.ok
              { st with
                  localState :=
                    { st.localState with
                        invalidatedQueries := st.localState.invalidatedQueries ++ [key] } }
        | none => Except.ok st
    | _ => Except.ok st

/-- The broadcast discriminants handleIncomingMessage recognizes. -/
def recognizedBroadcast : Payload → Bool
  | .permissionRequests _ => true
  | .getTransactionRequestsResponse _ => true
  | .updateActiveOrigin _ => true
  | .loadedFeatures _ _ => true
  | .setNetworkPayload _ => true
  | .entitiesUpdated _ => true
  | _ => false

/-- The response projection of signData: the signature out of a
signDataResponse payload, otherwise a throw. -/
def signDataProject : Payload → Except ClientError String
  | .signDataResponse signature => Except.ok signature
  | _ => Except.error (ClientError.unexpectedResponseShape
      "Error unknown response for signData message")

/-- The response projection of deriveNextAccount: the accountAddress out of
a keyring/deriveNextAccount payload with a truthy return, otherwise a throw. -/
def deriveNextAccountProject : Payload → Except ClientError String
  | .keyringDeriveNextAccount (some accountAddress) => Except.ok accountAddress
  | _ => Except.error (ClientError.unexpectedResponseShape
      "Error unknown response for derive account message")

/-- The response projection of exportAccount: the keyPair out of a
keyring/exportAccount payload with a truthy return, otherwise a throw. -/
def exportAccountProject : Payload → Except ClientError String
  | .keyringExportAccount (some keyPair) => Except.ok keyPair
  | _ => Except.error (ClientError.unexpectedResponseShape
      "Error unknown response for export account message")

/-- The response projection of getEntropy: the return of a
keyring/getEntropy payload when truthy (a non-empty string), otherwise the
mnemonic-not-found throw. -/
def getEntropyProject : Payload → Except ClientError String
  | .keyringGetEntropy (some entropy) =>
      if entropy = "" then Except.error ClientError.mnemonicNotFound
      else Except.ok entropy
  | _ => Except.error ClientError.mnemonicNotFound

/-- The response projection of getStoredEntities: first the discriminant
check, then the entity-type echo check, then the entities. -/
def getStoredEntitiesProject (t : EntityType) : Payload → Except ClientError (List String)
  | .storedEntitiesResponse rt entities =>
      if t ≠ rt then
        Except.error (ClientError.unexpectedResponseShape
          ("unexpected entity type response " ++ rt.str))
      else Except.ok entities
  | _ => Except.error (ClientError.unexpectedResponseShape "Unknown response")

/-- The response projection of createMnemonicAccountSource: first the
discriminant check, then the account-source-type check against "mnemonic". -/
def createMnemonicAccountSourceProject :
    Payload → Except ClientError SerializedAccountSource
  | .accountSourceCreationResponse src =>
      if src.type ≠ "mnemonic" then
        Except.error (ClientError.unexpectedResponseShape
          ("Unexpected account source type response " ++ src.type))
      else Except.ok src
  | _ => Except.error (ClientError.unexpectedResponseShape "Unknown response")

/-- The string the source interpolates for accounts[0]?.type in the
createAccounts error message (the word undefined when the list is empty). -/
def headTypeString (accounts : List SerializedAccount) : String :=
  match accounts.head? with
  | some a => a.type
  | none => "undefined"

/-- The response projection of createAccounts: first the discriminant
check, then the check that the first returned account has the requested
type (an empty list makes accounts[0]?.type undefined, which also fails). -/
def createAccountsProject (inputsType : String) :
    Payload → Except ClientError (List SerializedAccount)
  | .accountsCreatedResponse accounts =>
      if (accounts.head?.map fun a => a.type) ≠ some inputsType then
        Except.error (ClientError.unexpectedResponseShape
          ("Unexpected accounts type response " ++ headTypeString accounts))
      else Except.ok accounts
  | _ => Except.error (ClientError.unexpectedResponseShape "Unknown response")

/-- The response projection of deleteAccountSourceByType. -/
def deleteAccountSourceByTypeProject : Payload → Except ClientError Bool
  | .deleteAccountSourceByTypeResponse success => Except.ok success
  | _ => Except.error (ClientError.unexpectedResponseShape "Unknown response")

/-- The response projection of getStorageMigrationStatus. -/
def getStorageMigrationStatusProject : Payload → Except ClientError String
  | .storageMigrationStatus status => Except.ok status
  | _ => Except.error (ClientError.unexpectedResponseShape "Unknown response")

/-- The response projection of getAccountSourceEntropy: the whole args of a
getAccountSourceEntropyResponse payload. -/
def getAccountSourceEntropyProject : Payload → Except ClientError String
  | .getAccountSourceEntropyResponse entropy => Except.ok entropy
  | _ => Except.error (ClientError.unexpectedResponseShape "Unexpected response type")

/-- The response projection of fetchPendingQredoConnectRequest. -/
def fetchPendingQredoConnectRequestProject : Payload → Except ClientError String
  | .qredoGetPendingRequestResponse request => Except.ok request
  | _ => Except.error (ClientError.unexpectedResponseShape
      "Error unknown response for fetch pending qredo requests message")

/-- The response projection of getQredoConnectionInfo. -/
def getQredoConnectionInfoProject : Payload → Except ClientError String
  | .qredoGetQredoInfoResponse info => Except.ok info
  | _ => Except.error (ClientError.unexpectedResponseShape
      "Error unknown response for get qredo info message")

/-- The response projection of acceptQredoConnection. -/
def acceptQredoConnectionProject : Payload → Except ClientError (List SerializedAccount)
  | .qredoAcceptQredoConnectionResponse accounts => Except.ok accounts
  | _ => Except.error (ClientError.unexpectedResponseShape
      "Error unknown response for accept qredo connection")

end BackgroundClient

/-- The facade operations that project a typed result out of the response
payload and whose shape-mismatch throw is an unexpected-response error
(getEntropy projects too, but its mismatch throw is the mnemonic-not-found
error and is treated separately). The operations whose projection depends
on the request arguments carry them. -/
inductive FacadeOp where
  | signData
  | deriveNextAccount
  | exportAccount
  | getStoredEntities (t : EntityType)
  | createMnemonicAccountSource
  | createAccounts (inputsType : String)
  | deleteAccountSourceByType
  | getStorageMigrationStatus
  | getAccountSourceEntropy
  | fetchPendingQredoConnectRequest
  | getQredoConnectionInfo
  | acceptQredoConnection
deriving DecidableEq, Repr

/-- The projection of each operation, with the typed result discarded so the
operations can be quantified over uniformly; errors are preserved. -/
def projectOp : FacadeOp → Payload → Except ClientError Unit
  | .signData, p => (BackgroundClient.signDataProject p).map fun _ => ()
  | .deriveNextAccount, p => (BackgroundClient.deriveNextAccountProject p).map fun _ => ()
  | .exportAccount, p => (BackgroundClient.exportAccountProject p).map fun _ => ()
  | .getStoredEntities t, p => (BackgroundClient.getStoredEntitiesProject t p).map fun _ => ()
  | .createMnemonicAccountSource, p =>
      (BackgroundClient.createMnemonicAccountSourceProject p).map fun _ => ()
  | .createAccounts ty, p => (BackgroundClient.createAccountsProject ty p).map fun _ => ()
  | .deleteAccountSourceByType, p =>
      (BackgroundClient.deleteAccountSourceByTypeProject p).map fun _ => ()
  | .getStorageMigrationStatus, p =>
      (BackgroundClient.getStorageMigrationStatusProject p).map fun _ => ()
  | .getAccountSourceEntropy, p =>
      (BackgroundClient.getAccountSourceEntropyProject p).map fun _ => ()
  | .fetchPendingQredoConnectRequest, p =>
      (BackgroundClient.fetchPendingQredoConnectRequestProject p).map fun _ => ()
  | .getQredoConnectionInfo, p =>
      (BackgroundClient.getQredoConnectionInfoProject p).map fun _ => ()
  | .acceptQredoConnection, p =>
      (BackgroundClient.acceptQredoConnectionProject p).map fun _ => ()

/-- The payload discriminant each operation treats as its expected success
shape (the type guard each projection checks first). -/
def expectedSuccessShape : FacadeOp → Payload → Bool
  | .signData, .signDataResponse _ => true
  | .deriveNextAccount, .keyringDeriveNextAccount _ => true
  | .exportAccount, .keyringExportAccount _ => true
  | .getStoredEntities _, .storedEntitiesResponse _ _ => true
  | .createMnemonicAccountSource, .accountSourceCreationResponse _ => true
  | .createAccounts _, .accountsCreatedResponse _ => true
  | .deleteAccountSourceByType, .deleteAccountSourceByTypeResponse _ => true
  | .getStorageMigrationStatus, .storageMigrationStatus _ => true
  | .getAccountSourceEntropy, .getAccountSourceEntropyResponse _ => true
  | .fetchPendingQredoConnectRequest, .qredoGetPendingRequestResponse _ => true
  | .getQredoConnectionInfo, .qredoGetQredoInfoResponse _ => true
  | .acceptQredoConnection, .qredoAcceptQredoConnectionResponse _ => true
  | _, _ => false

/-- Whether a projection result is the unexpected-response-shape failure. -/
def isShapeError {α : Type} : Except ClientError α → Bool
  | .error (.unexpectedResponseShape _) => true
  | _ => false

/-- Modelled from the spec: the correlation behavior of
PortStream.sendMessage (the PortStream module is imported from
_messaging/PortStream and its source is not part of the sources at hand).
The stream an awaiting call observes consists of the incoming envelopes
whose id equals the request id, in arrival order. -/
def responsesFor (reqId : Nat) (incoming : List Envelope) : List Envelope :=
  incoming.filter fun e => e.id == reqId

/-- What a request-awaiting facade operation actually receives: every such
operation pipes the response stream through take(1), so only the first
correlated response reaches the call. -/
def deliveredToCall (reqId : Nat) (incoming : List Envelope) : List Envelope :=
  (responsesFor reqId incoming).take 1

/-!
## Theorems
-/

/-- C6: verifyPassword is dual-path: with the legacy flag true it builds a
keyring-typed verifyPassword envelope, with the flag false (the default) a
method-payload-typed verifyPassword envelope, and both envelopes carry
exactly the given password. -/
theorem c6_verify_password_dual_path (password : String) :
    (BackgroundClient.verifyPassword password true).envelope =
      { type := "keyring", method := some "verifyPassword",
        args := ReqArgs.password password } ∧
    (BackgroundClient.verifyPassword password false).envelope =
      { type := "method-payload", method := some "verifyPassword",
        args := ReqArgs.password password } ∧
    BackgroundClient.verifyPassword password = BackgroundClient.verifyPassword password false :=
  ⟨rfl, rfl, rfl⟩

/-- C5: sendAppStatus emits a keyring/appStatusUpdate envelope whose active
flag is true exactly when the document is visible, does not await a
response, and consecutive scheduled emissions are one fixed
APP_STATUS_UPDATE_INTERVAL apart. -/
theorem c5_app_status_update (visibilityState : String) (n : Nat) :
    (BackgroundClient.sendAppStatus visibilityState).envelope.type = "keyring" ∧
    (BackgroundClient.sendAppStatus visibilityState).envelope.method =
      some "appStatusUpdate" ∧
    ((BackgroundClient.sendAppStatus visibilityState).envelope.args =
        ReqArgs.appStatus true ↔ visibilityState = "visible") ∧
    (BackgroundClient.sendAppStatus visibilityState).awaitsResponse = false ∧
    BackgroundClient.appStatusEmissionTime (n + 1) -
        BackgroundClient.appStatusEmissionTime n =
      BackgroundClient.APP_STATUS_UPDATE_INTERVAL := by
  refine ⟨rfl, rfl, ?_, rfl, ?_⟩
  · simp [BackgroundClient.sendAppStatus]
  · simp [BackgroundClient.appStatusEmissionTime, BackgroundClient.APP_STATUS_UPDATE_INTERVAL]
    omega

/-- C5 witness: at visibility "visible" the emitted flag is active, and the
call never awaits a response. -/
theorem c5_app_status_update_witness :
    (BackgroundClient.sendAppStatus "visible").envelope.args = ReqArgs.appStatus true ∧
    (BackgroundClient.sendAppStatus "hidden").awaitsResponse = false :=
  ⟨((c5_app_status_update "visible" 0).2.2.1).mpr rfl,
   (c5_app_status_update "hidden" 0).2.2.2.1⟩

/-- C2: a send attempted while the port stream is absent or not connected
fails with the channel-not-connected error, and a send on a connected
stream hands exactly the given envelope to the stream; no other outcome
exists, so no message is silently dropped or queued. -/
theorem c2_send_disconnected_fails (st : ClientState) (msg : RequestEnvelope) :
    (BackgroundClient.portConnected st = false →
      BackgroundClient.sendMessage st msg = Except.error ClientError.channelNotConnected) ∧
    (BackgroundClient.portConnected st = true →
      BackgroundClient.sendMessage st msg =
        Except.ok { st with sentLog := st.sentLog ++ [msg] }) := by
  constructor <;> intro h <;> simp [BackgroundClient.sendMessage, h]

/-- C2 witness: on the fresh, never-connected state a send fails with the
channel-not-connected error. -/
theorem c2_send_disconnected_fails_witness :
    BackgroundClient.sendMessage preInitState BackgroundClient.getNetworkEnv =
      Except.error ClientError.channelNotConnected :=
  (c2_send_disconnected_fails preInitState BackgroundClient.getNetworkEnv).1 rfl

/-- C3: on a disconnect event the facade installs a freshly connected port
stream with both handlers subscribed, and sends nothing: the log of sent
envelopes is unchanged, so no in-flight request is replayed or retried. -/
theorem c3_reconnect_no_replay (st : ClientState) :
    (BackgroundClient.onDisconnect st).portStream = some BackgroundClient.freshPortStream ∧
    BackgroundClient.freshPortStream.connected = true ∧
    BackgroundClient.freshPortStream.disconnectHandlerSubscribed = true ∧
    BackgroundClient.freshPortStream.messageHandlerSubscribed = true ∧
    (BackgroundClient.onDisconnect st).sentLog = st.sentLog :=
  ⟨rfl, rfl, rfl, rfl, rfl⟩

/-- C9: init is at-most-once: on an already-initialized state it throws the
already-initialized error (producing no new state, hence neither a new port
stream nor a new interval registration), and an incoming message handled on
a not-yet-initialized state throws instead of being processed. -/
theorem c9_init_at_most_once (st : ClientState) (visibilityState : String) (msg : Envelope) :
    (st.inited = true →
      BackgroundClient.init st visibilityState = Except.error ClientError.alreadyInited) ∧
    (st.inited = false →
      BackgroundClient.handleIncomingMessage st msg = Except.error ClientError.notInited) := by
  constructor <;> intro h <;>
    simp [BackgroundClient.init, BackgroundClient.handleIncomingMessage, h]

/-- C9 witness: a second init on an initialized state throws, and a message
arriving before init throws. -/
theorem c9_init_at_most_once_witness :
    BackgroundClient.init { preInitState with inited := true } "visible" =
        Except.error ClientError.alreadyInited ∧
    BackgroundClient.handleIncomingMessage preInitState ⟨0, Payload.basePayload "x"⟩ =
        Except.error ClientError.notInited :=
  ⟨(c9_init_at_most_once { preInitState with inited := true } "visible"
      ⟨0, Payload.basePayload "x"⟩).1 rfl,
   (c9_init_at_most_once preInitState "visible" ⟨0, Payload.basePayload "x"⟩).2 rfl⟩

/-- C8: on an initialized facade, an incoming message whose payload matches
none of the recognized broadcast discriminants leaves the whole state
unchanged and raises no error. -/
theorem c8_unrecognized_broadcast_ignored (st : ClientState) (msg : Envelope)
    (hInit : st.inited = true) (hDispatch : st.dispatchSet = true)
    (hUnrec : BackgroundClient.recognizedBroadcast msg.payload = false) :
    BackgroundClient.handleIncomingMessage st msg = Except.ok st := by
  cases msg with
  | mk id payload =>
    cases payload <;>
      simp_all [BackgroundClient.handleIncomingMessage, BackgroundClient.recognizedBroadcast]

/-- C8 witness: a broadcast with a future, unrecognized discriminant is
ignored on an initialized instance. -/
theorem c8_unrecognized_broadcast_ignored_witness :
    BackgroundClient.handleIncomingMessage readyState
        ⟨3, Payload.basePayload "future-kind"⟩ = Except.ok readyState :=
  c8_unrecognized_broadcast_ignored readyState ⟨3, Payload.basePayload "future-kind"⟩
    rfl rfl rfl

/-- C4: at most one response is delivered to an awaiting call: the call
receives exactly the first incoming envelope carrying its correlation id
(none while no such envelope has arrived), every later envelope with the
same id is discarded, and everything delivered carries the request id. -/
theorem c4_at_most_one_response (reqId : Nat) (incoming : List Envelope) :
    deliveredToCall reqId incoming = (responsesFor reqId incoming).head?.toList ∧
    (deliveredToCall reqId incoming).length ≤ 1 ∧
    (∀ e, e ∈ deliveredToCall reqId incoming → e.id = reqId) := by
  refine ⟨?_, ?_, ?_⟩
  · unfold deliveredToCall
    cases responsesFor reqId incoming <;> rfl
  · unfold deliveredToCall
    cases responsesFor reqId incoming <;> simp
  · intro e he
    unfold deliveredToCall responsesFor at he
    have h1 : e ∈ List.filter (fun e => e.id == reqId) incoming := List.mem_of_mem_take he
    have h2 := (List.mem_filter.mp h1).2
    exact beq_iff_eq.mp h2

/-- C4 witness: with two responses carrying the same correlation id, only
the first one is delivered to the call. -/
theorem c4_at_most_one_response_witness :
    deliveredToCall 7 [⟨7, Payload.basePayload "first"⟩, ⟨7, Payload.basePayload "second"⟩] =
      [⟨7, Payload.basePayload "first"⟩] := by
  have h := (c4_at_most_one_response 7
      [⟨7, Payload.basePayload "first"⟩, ⟨7, Payload.basePayload "second"⟩]).1
  rw [h]
  rfl

/-- C10: createAccounts never returns an empty or mismatched result: when
the accountsCreatedResponse carries an empty list or a first account of a
different type the projection throws, and every successful result is a
non-empty list whose first account has the requested type. -/
theorem c10_create_accounts_nonempty_typed (inputsType : String) :
    (∀ accounts : List SerializedAccount,
        (accounts.head?.map fun a => a.type) ≠ some inputsType →
        isShapeError (BackgroundClient.createAccountsProject inputsType
          (Payload.accountsCreatedResponse accounts)) = true) ∧
    (∀ (p : Payload) (accounts : List SerializedAccount),
        BackgroundClient.createAccountsProject inputsType p = Except.ok accounts →
        accounts ≠ [] ∧ (accounts.head?.map fun a => a.type) = some inputsType) := by
  constructor
  · intro accounts h
    simp only [BackgroundClient.createAccountsProject]
    rw [if_pos h]
    rfl
  · intro p accounts h
    cases p <;> try exact Except.noConfusion h
    case accountsCreatedResponse accs =>
      simp only [BackgroundClient.createAccountsProject] at h
      split at h
      · exact Except.noConfusion h
      · next hcond =>
          have heq : (accs.head?.map fun a => a.type) = some inputsType := not_not.mp hcond
          have haccs : accs = accounts := by
            injection h
          subst haccs
          refine ⟨?_, heq⟩
          cases accs with
          | nil => simp at heq
          | cons a rest => exact List.cons_ne_nil a rest

/-- C10 witness: a successful createAccounts projection at a concrete
response is non-empty and starts with an account of the requested type. -/
theorem c10_create_accounts_nonempty_typed_witness :
    ([({ type := "mnemonic-derived", address := "0xabc" } : SerializedAccount)] ≠
        ([] : List SerializedAccount)) ∧
    ((([({ type := "mnemonic-derived", address := "0xabc" } : SerializedAccount)]).head?.map
        fun a => a.type) = some "mnemonic-derived") :=
  (c10_create_accounts_nonempty_typed "mnemonic-derived").2
    (Payload.accountsCreatedResponse [{ type := "mnemonic-derived", address := "0xabc" }])
    [{ type := "mnemonic-derived", address := "0xabc" }]
    (by rfl)

/-- C7: getEntropy succeeds exactly on a keyring/getEntropy payload whose
return value is a non-empty entropy string, and on every other payload it
fails with the mnemonic-not-found error. -/
theorem c7_get_entropy_mnemonic_not_found (p : Payload) :
    (∀ entropy : String,
        BackgroundClient.getEntropyProject p = Except.ok entropy ↔
          (p = Payload.keyringGetEntropy (some entropy) ∧ entropy ≠ "")) ∧
    (BackgroundClient.getEntropyProject p = Except.error ClientError.mnemonicNotFound ∨
      ∃ entropy, BackgroundClient.getEntropyProject p = Except.ok entropy) := by
  constructor
  · intro entropy
    constructor
    · intro h
      cases p <;> try exact Except.noConfusion h
      case keyringGetEntropy ret =>
        cases ret with
        | none => exact Except.noConfusion h
        | some e =>
          by_cases he : e = ""
          · exfalso
            simp [BackgroundClient.getEntropyProject, he] at h
          · have he2 : BackgroundClient.getEntropyProject
                (Payload.keyringGetEntropy (some e)) = Except.ok e := by
              simp [BackgroundClient.getEntropyProject, he]
            rw [he2] at h
            have he3 : e = entropy := by injection h
            subst he3
            exact ⟨rfl, he⟩
    · rintro ⟨hp, hne⟩
      subst hp
      simp [BackgroundClient.getEntropyProject, hne]
  · cases p <;> try (left; rfl)
    case keyringGetEntropy ret =>
      cases ret with
      | none => left; rfl
      | some e =>
        by_cases he : e = ""
        · left; simp [BackgroundClient.getEntropyProject, he]
        · right
          exact ⟨e, by simp [BackgroundClient.getEntropyProject, he]⟩

/-- C7 witness: a getEntropy response carrying a non-empty entropy is
returned as-is. -/
theorem c7_get_entropy_mnemonic_not_found_witness :
    BackgroundClient.getEntropyProject (Payload.keyringGetEntropy (some "0abc")) =
      Except.ok "0abc" :=
  ((c7_get_entropy_mnemonic_not_found (Payload.keyringGetEntropy (some "0abc"))).1 "0abc").mpr
    ⟨rfl, by decide⟩

/-- C1 counterexample: getEntropy, which the claim lists among the
operations failing with the unexpected-response-shape error, fails with the
mnemonic-not-found error on a payload whose discriminant does not match its
expected success shape. -/
theorem c1_get_entropy_shape_cex :
    BackgroundClient.getEntropyProject (Payload.basePayload "mystery") =
        Except.error ClientError.mnemonicNotFound ∧
    isShapeError (BackgroundClient.getEntropyProject (Payload.basePayload "mystery")) =
        false :=
  ⟨rfl, rfl⟩

/-- C1 (amended): for every result-projecting operation other than
getEntropy — signData, deriveNextAccount, exportAccount, getStoredEntities,
createMnemonicAccountSource, createAccounts, deleteAccountSourceByType,
getStorageMigrationStatus, getAccountSourceEntropy and the projecting
qredo-connect operations — a response payload whose discriminant does not
match the expected success shape makes the call fail with the
unexpected-response-shape error instead of returning a value. -/
theorem c1_shape_mismatch_unexpected_response (op : FacadeOp) (p : Payload)
    (h : expectedSuccessShape op p = false) :
    isShapeError (projectOp op p) = true := by
  cases op <;> cases p <;> first
    | rfl
    | exact Bool.noConfusion h

/-- C1 witness: signData on a payload of an unknown discriminant fails with
the unexpected-response-shape error. -/
theorem c1_shape_mismatch_unexpected_response_witness :
    isShapeError (projectOp FacadeOp.signData (Payload.basePayload "mystery")) = true :=
  c1_shape_mismatch_unexpected_response FacadeOp.signData (Payload.basePayload "mystery") rfl
